import Mathlib

/-!
Shallow embedding of the EdgeConnect sample-construction pipeline
(`src/dataset.py`, class `Dataset`) together with theorems settling the
spec claims about it.

Modelling conventions:
* A pixel buffer (numpy array) is an `Img`: a rank tag (`ndim`, 2 for a
  plain 2-D array, 3 for an H x W x C array), spatial dimensions, a channel
  count, and a total pixel function `px y x c : Rat`.
* External collaborators that are not part of this repository's source
  (the filesystem reader `imread`, the resampler `utils.resize`, the Canny
  edge detector `skimage.feature.canny`, and the block-mask synthesis
  routine `mask_generator.generate_random_mask`) are fields of a `Prims`
  record so theorems quantify over every conforming primitive; concrete
  instances are supplied for witnesses.
* Ambient randomness (`random.*`, `np.random.*`) is an explicit `Rng`
  record of draws, one field per stochastic decision of a single sample
  construction.
* Fallible Python code (exceptions) returns `Except Err _`.
-/

set_option autoImplicit false

namespace EdgeConnect

/-- Failure modes of single-sample construction (Python exceptions). -/
inductive Err where
  | indexError
  | valueError
  | typeError
  | ioError
  deriving DecidableEq, Repr

/-- A pixel buffer: `ndim = 2` encodes a plain `(h, w)` array, `ndim = 3`
an `(h, w, c)` array.  `px y x ch` reads a pixel value (channel ignored by
2-D buffers). -/
structure Img where
  ndim : Nat
  h : Nat
  w : Nat
  c : Nat
  px : Nat → Nat → Nat → Rat

/-- `numpy`-style shape tuple of a buffer. -/
def Img.shape (i : Img) : List Nat :=
  if i.ndim < 3 then [i.h, i.w] else [i.h, i.w, i.c]

/-- `skimage.color.gray2rgb`: replicate a single channel three times,
producing an `(h, w, 3)` buffer. -/
def gray2rgb (i : Img) : Img :=
  { ndim := 3, h := i.h, w := i.w, c := 3, px := fun y x _ => i.px y x 0 }

/-- `skimage.color.rgb2gray`: luminance of an `(h, w, 3)` buffer as a 2-D
array.  A 2-D input is returned unchanged (the behaviour of the skimage
release this repository targets, which accepts already-gray input). -/
def rgb2gray (i : Img) : Img :=
  if i.ndim < 3 then { i with ndim := 2 }
  else
    { ndim := 2, h := i.h, w := i.w, c := 1,
      px := fun y x _ =>
        (2125 * i.px y x 0 + 7154 * i.px y x 1 + 721 * i.px y x 2) / 10000 }

/-- `np.zeros(i.shape)`: an all-zero buffer of the same shape. -/
def zerosLike (i : Img) : Img :=
  { ndim := i.ndim, h := i.h, w := i.w, c := i.c, px := fun _ _ _ => 0 }

/-- Elementwise product of same-shape buffers (numpy `*`). -/
def mulElem (a b : Img) : Img :=
  { a with px := fun y x ch => a.px y x ch * b.px y x ch }

/-- Horizontal mirror `a[:, ::-1, ...]`. -/
def hflip (a : Img) : Img :=
  { a with px := fun y x ch => a.px y (a.w - 1 - x) ch }

/-- `(mask > 0).astype(np.uint8) * 255`: threshold every strictly positive
pixel to 255, all others to 0. -/
def threshold255 (m : Img) : Img :=
  { m with px := fun y x ch => if 0 < m.px y x ch then 255 else 0 }

/-- `(1 - mask / 255).astype(np.bool)`: inverse-normalize an occlusion mask
into a boolean (0/1) visibility field. -/
def invertMask (m : Img) : Img :=
  { m with px := fun y x ch => if 1 - m.px y x ch / 255 = 0 then 0 else 1 }

/-- Modelled from the spec: `create_mask` of the repository's `utils`
module (not under `src/`): rasterize a `mask_width`-wide,
`mask_height`-high rectangle of value 255 at offset `(x, y)` on an
all-zero `(height, width)` canvas. -/
def create_mask (width height mask_width mask_height x y : Nat) : Img :=
  { ndim := 2, h := height, w := width, c := 1,
    px := fun py qx _ =>
      if y ≤ py ∧ py < y + mask_height ∧ x ≤ qx ∧ qx < x + mask_width
      then 255 else 0 }

/-- `random.randint(a, b)`: inclusive-range draw; raises `ValueError` when
the range `a..b` is empty.  `draw` is the ambient random draw. -/
def pyRandint (a b : Int) (draw : Nat) : Except Err Int :=
  if b < a then .error .valueError
  else .ok (a + (draw % (b - a + 1).toNat : Nat))

/-- `np.random.randint(a, b)`: half-open-range draw `a ≤ r < b` (only used
here with constant non-empty ranges). -/
def npRandint (a b : Int) (draw : Nat) : Int :=
  a + (draw % (b - a).toNat : Nat)

/-- The random draws consumed by one sample construction, one field per
stochastic decision in `dataset.py`. -/
structure Rng where
  /-- `np.random.binomial(1, 0.5) > 0` in `load_item` (augmentation). -/
  augCoin : Bool
  /-- `np.random.binomial(1, 0.5) == 1` in `load_mask` (mask type 4). -/
  blockOrExtCoin : Bool
  /-- draw behind `np.random.randint(1, 4)` in `load_mask` (mask type 5). -/
  threeWayDraw : Nat
  /-- draw behind `np.random.randint(2, 5)` in `load_mask` (mask type 1). -/
  blockRowsDraw : Nat
  /-- `np.random.rand(rows, 8)` parameter matrix in `load_mask` (type 1). -/
  blockParams : Nat → Nat → Rat
  /-- `random.random() < 0.5` in `load_mask` (mask type 2). -/
  halfCoin : Bool
  /-- draw behind `random.randint(0, len(mask_data) - 1)` (mask type 3). -/
  extDraw : Nat
  /-- draw behind `random.randint(1, 4)` in `load_edge` (random sigma). -/
  sigmaDraw : Nat

/-- The external primitives `dataset.py` calls (boundary collaborators of
the spec): filesystem image reader, geometry resampler, Canny detector
(returning a 0/1 boolean map), and the external block-mask synthesis
routine (taking the row count and parameter matrix of
`np.random.rand(rows, 8)`). -/
structure Prims where
  imread : String → Except Err Img
  resize : Img → Nat → Nat → Bool → Img
  canny : Img → Int → Option Img → Img
  generate_random_mask : Nat → (Nat → Nat → Rat) → Nat → Nat → Img

/-- The configuration fields `Dataset.__init__` reads. -/
structure Config where
  MODE : Nat
  DATASET_PATH : String
  INPUT_SIZE : Nat
  SIGMA : Int
  EDGE : Nat
  MASK : Nat
  NMS : Nat

/-- The state a constructed `Dataset` object carries (file lists already
resolved by `load_flist`). -/
structure Dataset where
  mode : Nat
  augment : Bool
  training : Bool
  data : List String
  edge_data : List String
  mask_data : List String
  input_size : Nat
  sigma : Int
  edge : Nat
  mask : Nat
  nms : Nat
  is_center_crop : Bool

/-- `Dataset.__init__`: copy the configuration, force mask policy 6 in
test mode (`MODE == 2`), and derive the crop flag `is_center_crop`
(`True if self.mode == 1 else False`). -/
def Dataset.init (cfg : Config) (data edge_data mask_data : List String)
    (augment training : Bool) : Dataset :=
  { mode := cfg.MODE
    augment := augment
    training := training
    data := data
    edge_data := edge_data
    mask_data := mask_data
    input_size := cfg.INPUT_SIZE
    sigma := cfg.SIGMA
    edge := cfg.EDGE
    mask := if cfg.MODE = 2 then 6 else cfg.MASK
    nms := cfg.NMS
    is_center_crop := cfg.MODE = 1 }

/-- Modelled from the spec: the spec's `RunMode` names for the integer
`config.MODE` codes.  The spec assigns center-crop to Validation (the
code's `mode == 1` test) and the forced one-to-one mask selection at
`MODE == 2` to Test. -/
def MODE_Validation : Nat := 1

/-- Modelled from the spec: the `config.MODE` code of Test mode. -/
def MODE_Test : Nat := 2

/-- `Dataset.load_mask`: produce the occlusion mask for the (already
normalized) image `img` at `index`.  Composite policies 4 and 5 re-roll a
base policy; recognized base policies return a mask (`.ok (some _)`) or
raise; any other value falls through every branch and returns Python's
`None` (`.ok none`). -/
def Dataset.load_mask (P : Prims) (d : Dataset) (rng : Rng) (img : Img)
    (index : Nat) : Except Err (Option Img) :=
  let imgh := img.h
  let imgw := img.w
  let mask_type : Nat :=
    if d.mask = 4 then (if rng.blockOrExtCoin then 1 else 3)
    else if d.mask = 5 then (npRandint 1 4 rng.threeWayDraw).toNat
    else d.mask
  if mask_type = 1 then
    .ok (some (P.generate_random_mask (npRandint 2 5 rng.blockRowsDraw).toNat
      rng.blockParams imgh imgw))
  else if mask_type = 2 then
    .ok (some (create_mask imgw imgh (imgw / 2) imgh
      (if rng.halfCoin then 0 else imgw / 2) 0))
  else if mask_type = 3 then
    match pyRandint 0 ((d.mask_data.length : Int) - 1) rng.extDraw with
    | .error e => .error e
    | .ok mi =>
      match d.mask_data.get? mi.toNat with
      | none => .error .indexError
      | some path =>
        match P.imread path with
        | .error e => .error e
        | .ok m =>
          .ok (some (threshold255 (P.resize m imgh imgw d.is_center_crop)))
  else if mask_type = 6 then
    -- `index % len(mask_data)` raises ZeroDivisionError on an empty list;
    -- the failed lookup models that failure.
    match d.mask_data.get? (index % d.mask_data.length) with
    | none => .error .indexError
    | some path =>
      match P.imread path with
      | .error e => .error e
      | .ok m =>
        .ok (some (threshold255 (rgb2gray (P.resize m imgh imgw false))))
  else
    .ok none

/-- The unconditional first statement of `Dataset.load_edge`:
`mask = None if self.training else (1 - mask / 255).astype(np.bool)`.
Outside training this dereferences the mask, so a missing (`None`) mask
raises before any sigma handling. -/
def maskParamE (d : Dataset) (maskOpt : Option Img) : Except Err (Option Img) :=
  if d.training then .ok none
  else
    match maskOpt with
    | none => .error .typeError
    | some m => .ok (some (invertMask m))

/-- `Dataset.load_edge`: Canny path (`edge == 1`) with sigma sentinels
(-1 = all-zero map, 0 = random sigma in 1..4), or external path loading
`edge_data[index]`, resizing it to the grayscale image's shape, and — when
`nms == 1` — multiplying by a fresh Canny map computed with the raw
configured sigma. -/
def Dataset.load_edge (P : Prims) (d : Dataset) (rng : Rng) (img : Img)
    (index : Nat) (maskOpt : Option Img) : Except Err Img :=
  let sigma := d.sigma
  match maskParamE d maskOpt with
  | .error e => .error e
  | .ok mp =>
    if d.edge = 1 then
      if sigma = -1 then .ok (zerosLike img)
      else
        match pyRandint 1 4 rng.sigmaDraw with
        | .error e => .error e
        | .ok drawn =>
          let sigma := if sigma = 0 then drawn else sigma
          .ok (P.canny img sigma mp)
    else
      let imgh := img.h
      let imgw := img.w
      match d.edge_data.get? index with
      | none => .error .indexError
      | some path =>
        match P.imread path with
        | .error e => .error e
        | .ok e0 =>
          let e1 := P.resize e0 imgh imgw d.is_center_crop
          if d.nms = 1 then .ok (mulElem e1 (P.canny img sigma mp))
          else .ok e1

/-- Lines 65-74 of `load_item`: the buffer the rest of the pipeline
consumes.  `img` is captured from the raw load *before* the gray-to-rgb
promotion of `ori_img`; only the resize branch (`size != 0`) re-reads the
promoted `ori_img`. -/
def processingBuffer (P : Prims) (d : Dataset) (ori_img0 : Img) : Img :=
  let ori_img := if ori_img0.shape.length < 3 then gray2rgb ori_img0 else ori_img0
  if d.input_size ≠ 0 then
    P.resize ori_img d.input_size d.input_size d.is_center_crop
  else ori_img0

/-- A constructed sample before tensor conversion: `list(ori_img.shape)`
and the image / grayscale / edge / mask buffers handed to `to_tensor`. -/
structure Item where
  oriShape : List Nat
  image : Img
  gray : Img
  edgeMap : Img
  maskMap : Img

/-- `Dataset.load_item`: load the raw image, promote `ori_img` to RGB when
rank-2, resize when `size != 0`, derive grayscale, load and (when
resizing) renormalize the mask, load the edge map, optionally mirror all
four buffers, and package.  A `None` mask raises at the first stage that
dereferences it (mask resize, edge visibility masking, mirroring or tensor
conversion). -/
def Dataset.load_item (P : Prims) (d : Dataset) (rng : Rng) (index : Nat) :
    Except Err Item :=
  let size := d.input_size
  match d.data.get? index with
  | none => .error .indexError
  | some path =>
  match P.imread path with
  | .error e => .error e
  | .ok ori_img0 =>
    let ori_img := if ori_img0.shape.length < 3 then gray2rgb ori_img0 else ori_img0
    let img := processingBuffer P d ori_img0
    let img_gray := rgb2gray img
    match Dataset.load_mask P d rng img index with
    | .error e => .error e
    | .ok maskOpt =>
      let maskResizedE : Except Err (Option Img) :=
        if size ≠ 0 then
          match maskOpt with
          | none => .error .typeError
          | some m => .ok (some (P.resize m img.h img.w d.is_center_crop))
        else .ok maskOpt
      match maskResizedE with
      | .error e => .error e
      | .ok maskOpt2 =>
        match Dataset.load_edge P d rng img_gray index maskOpt2 with
        | .error e => .error e
        | .ok edgeMap =>
          match maskOpt2 with
          | none => .error .typeError
          | some mask =>
            if d.augment && rng.augCoin then
              .ok ⟨ori_img.shape, hflip img, hflip img_gray, hflip edgeMap,
                hflip mask⟩
            else
              .ok ⟨ori_img.shape, img, img_gray, edgeMap, mask⟩

/-- `Dataset.__getitem__`: try `load_item(index)`; on any failure, format
the log line (`'loading error: ' + self.data[index]`, which re-indexes the
file list and re-raises for an out-of-range index) and fall back to
`load_item(0)` with fresh randomness `rng0`. -/
def Dataset.getitem (P : Prims) (d : Dataset) (rng rng0 : Rng)
    (index : Nat) : Except Err Item :=
  match Dataset.load_item P d rng index with
  | .ok item => .ok item
  | .error _ =>
    match d.data.get? index with
    | none => .error .indexError
    | some _ => Dataset.load_item P d rng0 0

/-- Modelled from the spec: the batches one pass of
`DataLoader(dataset=self, batch_size, drop_last=True)` yields — the
default sequential sampler groups indices `0..n-1` into consecutive
batches of exactly `batch_size`, dropping the trailing group when it is
short. -/
def dataLoaderBatches (n batch_size : Nat) : List (List Nat) :=
  (List.range (n / batch_size)).map
    (fun j => (List.range batch_size).map (fun i => j * batch_size + i))

/-- `Dataset.create_iterator`: an endless `while True` loop rebuilding the
loader and yielding its batches, i.e. the `k`-th batch the generator ever
yields (by index lists).  When a pass yields no batch at all the loop
spins without yielding, so no `k`-th batch exists. -/
def Dataset.create_iterator (d : Dataset) (batch_size k : Nat) :
    Option (List Nat) :=
  let nb := d.data.length / batch_size
  if nb = 0 then none
  else (dataLoaderBatches d.data.length batch_size).get? (k % nb)

/-- Modelled from the spec's words, for comparison with the code: the
fresh Canny factor of the external-edge non-max-suppression step *if* it
followed the same sigma selection rules as the CannyComputed path
(sigma = -1 gives an all-zero map, sigma = 0 draws a random sigma in
1..4, otherwise the fixed sigma is used). -/
def specSigmaCanny (P : Prims) (d : Dataset) (rng : Rng) (img : Img)
    (mp : Option Img) : Img :=
  if d.sigma = -1 then zerosLike img
  else
    P.canny img
      (if d.sigma = 0 then 1 + ((rng.sigmaDraw % 4 : Nat) : Int) else d.sigma) mp

/-! ### Concrete primitives and inputs used by witnesses -/

/-- Modelled from the spec: a concrete deterministic Geometry resampler
(`utils.resize`, not under `src/`): returns a buffer of the target shape,
sampling from a centered window when `centerCrop` is set and by scaling
otherwise. -/
def specResize (i : Img) (th tw : Nat) (centerCrop : Bool) : Img :=
  { ndim := i.ndim, h := th, w := tw, c := i.c,
    px := fun y x ch =>
      if centerCrop then i.px (y + (i.h - th) / 2) (x + (i.w - tw) / 2) ch
      else i.px (y * i.h / th) (x * i.w / tw) ch }

/-- A constant 2-D `n x n` buffer. -/
def constImg2 (n : Nat) (v : Rat) : Img :=
  { ndim := 2, h := n, w := n, c := 1, px := fun _ _ _ => v }

/-- A constant 3-channel `n x n` buffer. -/
def constImg3 (n : Nat) (v : Rat) : Img :=
  { ndim := 3, h := n, w := n, c := 3, px := fun _ _ _ => v }

/-- A conforming Canny detector marking every pixel as an edge. -/
def onesCanny : Img → Int → Option Img → Img :=
  fun i _ _ => { ndim := 2, h := i.h, w := i.w, c := 1, px := fun _ _ _ => 1 }

/-- Concrete primitives for witnesses. -/
def defaultPrims : Prims :=
  { imread := fun _ => .ok (constImg3 4 (1/2))
    resize := specResize
    canny := onesCanny
    generate_random_mask := fun _ _ h w =>
      { ndim := 2, h := h, w := w, c := 1, px := fun _ _ _ => 0 } }

/-- A fixed random-draw record for witnesses. -/
def rng0 : Rng :=
  { augCoin := false, blockOrExtCoin := false, threeWayDraw := 0
    blockRowsDraw := 0, blockParams := fun _ _ => 0
    halfCoin := true, extDraw := 0, sigmaDraw := 0 }

/-- A second random-draw record, differing from `rng0` in every draw. -/
def rngAlt : Rng :=
  { augCoin := true, blockOrExtCoin := true, threeWayDraw := 1
    blockRowsDraw := 1, blockParams := fun _ _ => 1
    halfCoin := false, extDraw := 5, sigmaDraw := 2 }

/-- Config for the C4 witness: Test mode (`MODE = 2`). -/
def cfgC4w : Config :=
  { MODE := 2, DATASET_PATH := "", INPUT_SIZE := 0, SIGMA := 2
    EDGE := 1, MASK := 1, NMS := 0 }

/-- Primitives for the C4 witness: the reader returns an all-ones RGB
buffer for the mask file. -/
def primsC4w : Prims := { defaultPrims with imread := fun _ => .ok (constImg3 4 1) }

/-- Dataset for the C5 witness: HalfPlane mask policy. -/
def dC5w : Dataset :=
  { mode := 3, augment := false, training := true, data := ["i"]
    edge_data := [], mask_data := [], input_size := 0, sigma := -1
    edge := 1, mask := 2, nms := 0, is_center_crop := false }

/-- A 4 x 6 rank-2 image for the C5 witness. -/
def imgC5w : Img :=
  { ndim := 2, h := 4, w := 6, c := 1, px := fun _ _ _ => 1/2 }

/-- Dataset for the C6 witness: train mode, Canny edge, sigma -1. -/
def dC6w : Dataset :=
  { mode := 3, augment := false, training := true, data := ["i"]
    edge_data := [], mask_data := [], input_size := 0, sigma := -1
    edge := 1, mask := 2, nms := 0, is_center_crop := false }

/-- Dataset for the C7 witness: empty mask list, ExternalFile policy. -/
def dC7w : Dataset :=
  { mode := 3, augment := false, training := true, data := ["i"]
    edge_data := [], mask_data := [], input_size := 0, sigma := -1
    edge := 1, mask := 3, nms := 0, is_center_crop := false }

/-- Dataset for the C3 amended witness: like `dC3` but with a fixed
sigma of 2. -/
def dC3w : Dataset :=
  { mode := 3, augment := false, training := true, data := ["i"]
    edge_data := ["e"], mask_data := [], input_size := 0, sigma := 2
    edge := 2, mask := 1, nms := 1, is_center_crop := false }

/-- Dataset for the C9 witness: ten image files. -/
def dC9w : Dataset :=
  { mode := 3, augment := false, training := true
    data := ["a0", "a1", "a2", "a3", "a4", "a5", "a6", "a7", "a8", "a9"]
    edge_data := [], mask_data := [], input_size := 0, sigma := -1
    edge := 1, mask := 2, nms := 0, is_center_crop := false }

/-- Config for the C2 witness: Validation mode (`MODE = 1`) with the
HalfPlane mask policy. -/
def cfgC2w : Config :=
  { MODE := 1, DATASET_PATH := "", INPUT_SIZE := 4, SIGMA := -1
    EDGE := 1, MASK := 2, NMS := 0 }

/-! ### C1 -/

/-- A 64 x 64 single-channel (rank-2) raw source image. -/
def grayRaw : Img := constImg2 64 (1/2)

/-- Config for C1: no resize (`INPUT_SIZE = 0`), HalfPlane mask, disabled
sigma, Canny edge, train mode. -/
def cfgC1 : Config :=
  { MODE := 3, DATASET_PATH := "", INPUT_SIZE := 0, SIGMA := -1
    EDGE := 1, MASK := 2, NMS := 0 }

/-- Dataset for C1. -/
def dC1 : Dataset := Dataset.init cfgC1 ["img0"] [] [] false true

/-- Primitives whose reader returns the rank-2 raw image. -/
def primsC1 : Prims := { defaultPrims with imread := fun _ => .ok grayRaw }

/-- C1: the claim fails on the code and the spec is the intent: for a
raw image with fewer than 3 channels and target size 0, `load_item`
promotes only the local `ori_img` binding, while the stale pre-promotion
buffer `img` (still rank-2) is the one consumed by grayscale derivation,
mask creation, edge detection and packaging — the sample's image buffer
comes out rank-2, not 3-channel. -/
theorem C1_size0_buffer_not_promoted :
    (processingBuffer primsC1 dC1 grayRaw).ndim = 2 ∧
    (gray2rgb grayRaw).ndim = 3 ∧
    (Dataset.load_item primsC1 dC1 rng0 0).map (fun it => it.image.shape.length)
      = .ok 2 ∧
    (Dataset.load_item primsC1 dC1 rng0 0).map (fun it => it.oriShape.length)
      = .ok 3 := by
  refine ⟨rfl, rfl, rfl, rfl⟩

/-! ### C10 -/

/-- C10: any configured mask-policy value outside {1,...,6} falls through
every branch of `load_mask` and yields Python's `None` (here `.ok none`):
no error is raised and no mask is produced. -/
theorem C10_unrecognized_mask_policy (P : Prims) (d : Dataset) (rng : Rng)
    (img : Img) (index : Nat) (h : d.mask ∉ [1, 2, 3, 4, 5, 6]) :
    Dataset.load_mask P d rng img index = .ok none := by
  simp only [List.mem_cons, List.mem_singleton, not_or] at h
  obtain ⟨h1, h2, h3, h4, h5, h6, -⟩ := h
  unfold Dataset.load_mask
  simp [h1, h2, h3, h4, h5, h6]

/-- Witness for C10 at mask policy 7. -/
theorem C10_witness :
    (7 : Nat) ∉ [1, 2, 3, 4, 5, 6] ∧
    Dataset.load_mask defaultPrims
      { mode := 3, augment := false, training := true, data := ["i"]
        edge_data := [], mask_data := [], input_size := 0, sigma := -1
        edge := 1, mask := 7, nms := 0, is_center_crop := false }
      rng0 (constImg3 4 (1/2)) 0 = .ok none :=
  ⟨by decide, C10_unrecognized_mask_policy defaultPrims _ rng0 _ 0 (by decide)⟩

/-! ### C4 -/

/-- C4: in Test mode (`MODE = 2`, forcing mask policy 6) the mask is a
pure deterministic function of the index: the file at position
`index mod mask_list_length` is loaded, normalized without center-crop,
converted to single-channel grayscale, and thresholded so every strictly
positive pixel becomes 255 and all others 0; the result is independent of
every random draw, so two calls with the same index select the identical
mask file. -/
theorem C4_test_mask_deterministic (P : Prims) (cfg : Config)
    (data edge_data mask_data : List String) (augment training : Bool)
    (rng rng' : Rng) (img : Img) (index : Nat) (path : String) (mraw : Img)
    (hmode : cfg.MODE = MODE_Test)
    (hpath : mask_data.get? (index % mask_data.length) = some path)
    (hread : P.imread path = .ok mraw) :
    Dataset.load_mask P (Dataset.init cfg data edge_data mask_data augment training)
        rng img index =
      .ok (some (threshold255 (rgb2gray (P.resize mraw img.h img.w false)))) ∧
    Dataset.load_mask P (Dataset.init cfg data edge_data mask_data augment training)
        rng img index =
      Dataset.load_mask P (Dataset.init cfg data edge_data mask_data augment training)
        rng' img index ∧
    (∀ y x c,
      (threshold255 (rgb2gray (P.resize mraw img.h img.w false))).px y x c =
        if 0 < (rgb2gray (P.resize mraw img.h img.w false)).px y x c
        then 255 else 0) := by
  have key : ∀ r : Rng,
      Dataset.load_mask P (Dataset.init cfg data edge_data mask_data augment training)
          r img index =
        .ok (some (threshold255 (rgb2gray (P.resize mraw img.h img.w false)))) := by
    intro r
    unfold Dataset.load_mask Dataset.init
    rw [hmode]
    norm_num [ MODE_Test]
    rw [List.get?_eq_getElem?] at hpath
    simp only [hpath, hread]
  exact ⟨key rng, by rw [key rng, key rng'], fun y x c => rfl⟩

/-- Witness for C4: a one-file mask list in Test mode, two distinct
random-draw records. -/
theorem C4_witness :
    (cfgC4w.MODE = MODE_Test ∧
      ["m"].get? (0 % (["m"] : List String).length) = some "m" ∧
      primsC4w.imread "m" = .ok (constImg3 4 1)) ∧
    (Dataset.load_mask primsC4w (Dataset.init cfgC4w ["i"] [] ["m"] false false)
        rng0 (constImg3 4 (1/2)) 0 =
      .ok (some (threshold255 (rgb2gray
        (primsC4w.resize (constImg3 4 1) (constImg3 4 (1/2)).h
          (constImg3 4 (1/2)).w false)))) ∧
    Dataset.load_mask primsC4w (Dataset.init cfgC4w ["i"] [] ["m"] false false)
        rng0 (constImg3 4 (1/2)) 0 =
      Dataset.load_mask primsC4w (Dataset.init cfgC4w ["i"] [] ["m"] false false)
        rngAlt (constImg3 4 (1/2)) 0 ∧
    (∀ y x c,
      (threshold255 (rgb2gray (primsC4w.resize (constImg3 4 1)
          (constImg3 4 (1/2)).h (constImg3 4 (1/2)).w false))).px y x c =
        if 0 < (rgb2gray (primsC4w.resize (constImg3 4 1)
            (constImg3 4 (1/2)).h (constImg3 4 (1/2)).w false)).px y x c
        then 255 else 0)) :=
  ⟨⟨rfl, rfl, rfl⟩,
    C4_test_mask_deterministic primsC4w cfgC4w ["i"] [] ["m"] false false
      rng0 rngAlt (constImg3 4 (1/2)) 0 "m" (constImg3 4 1) rfl rfl rfl⟩

/-! ### C5 -/

/-- C5: the HalfPlane policy (mask type 2) returns the rasterized
rectangle `create_mask(imgw, imgh, imgw / 2, imgh, off, 0)` with
`off = 0` (left half) when the coin draw is below one half and
`off = imgw / 2` (right half) otherwise; inside the image canvas the mask
is 255 exactly on the `imgw / 2`-column-wide, full-height rectangle at
that offset and 0 everywhere else. -/
theorem C5_halfplane_mask (P : Prims) (d : Dataset) (rng : Rng) (img : Img)
    (index : Nat) (hm : d.mask = 2) :
    Dataset.load_mask P d rng img index =
      .ok (some (create_mask img.w img.h (img.w / 2) img.h
        (if rng.halfCoin then 0 else img.w / 2) 0)) ∧
    (create_mask img.w img.h (img.w / 2) img.h
      (if rng.halfCoin then 0 else img.w / 2) 0).h = img.h ∧
    (create_mask img.w img.h (img.w / 2) img.h
      (if rng.halfCoin then 0 else img.w / 2) 0).w = img.w ∧
    (∀ y x, y < img.h →
      (create_mask img.w img.h (img.w / 2) img.h
          (if rng.halfCoin then 0 else img.w / 2) 0).px y x 0 =
        if (if rng.halfCoin then 0 else img.w / 2) ≤ x ∧
            x < (if rng.halfCoin then 0 else img.w / 2) + img.w / 2
        then 255 else 0) := by
  refine ⟨?_, rfl, rfl, ?_⟩
  · unfold Dataset.load_mask
    rw [hm]
    norm_num
  · intro y x hy
    simp [create_mask, hy]

/-- Witness for C5: a 4 x 6 image, HalfPlane policy, left-half coin. -/
theorem C5_witness :
    dC5w.mask = 2 ∧
    (Dataset.load_mask defaultPrims dC5w rng0 imgC5w 0 =
      .ok (some (create_mask imgC5w.w imgC5w.h (imgC5w.w / 2) imgC5w.h
        (if rng0.halfCoin then 0 else imgC5w.w / 2) 0)) ∧
    (create_mask imgC5w.w imgC5w.h (imgC5w.w / 2) imgC5w.h
      (if rng0.halfCoin then 0 else imgC5w.w / 2) 0).h = imgC5w.h ∧
    (create_mask imgC5w.w imgC5w.h (imgC5w.w / 2) imgC5w.h
      (if rng0.halfCoin then 0 else imgC5w.w / 2) 0).w = imgC5w.w ∧
    (∀ y x, y < imgC5w.h →
      (create_mask imgC5w.w imgC5w.h (imgC5w.w / 2) imgC5w.h
          (if rng0.halfCoin then 0 else imgC5w.w / 2) 0).px y x 0 =
        if (if rng0.halfCoin then 0 else imgC5w.w / 2) ≤ x ∧
            x < (if rng0.halfCoin then 0 else imgC5w.w / 2) + imgC5w.w / 2
        then 255 else 0)) :=
  ⟨rfl, C5_halfplane_mask defaultPrims dC5w rng0 imgC5w 0 rfl⟩

/-! ### C6 -/

/-- C6: with the Canny edge policy and the disabled-sigma sentinel (-1),
`load_edge` returns the all-zero buffer shaped like its grayscale input
for every conforming detector primitive (the detector result never enters
the computation), provided the unconditional visibility-mask statement
does not itself raise (training mode, or a present mask). -/
theorem C6_sigma_disabled_zero_edge (P : Prims) (d : Dataset) (rng : Rng)
    (img : Img) (index : Nat) (maskOpt mp : Option Img)
    (hedge : d.edge = 1) (hsig : d.sigma = -1)
    (hmp : maskParamE d maskOpt = .ok mp) :
    Dataset.load_edge P d rng img index maskOpt = .ok (zerosLike img) ∧
    (∀ P' : Prims,
      Dataset.load_edge P' d rng img index maskOpt = .ok (zerosLike img)) ∧
    (zerosLike img).shape = img.shape ∧
    (∀ y x c, (zerosLike img).px y x c = 0) := by
  have key : ∀ P' : Prims,
      Dataset.load_edge P' d rng img index maskOpt = .ok (zerosLike img) := by
    intro P'
    unfold Dataset.load_edge
    rw [hmp, hedge, hsig]
    simp
  exact ⟨key P, key, by simp [zerosLike, Img.shape], fun _ _ _ => rfl⟩

/-- Witness for C6: train mode, Canny policy, sigma -1, with the all-ones
detector (whose output is visibly discarded). -/
theorem C6_witness :
    (dC6w.edge = 1 ∧ dC6w.sigma = -1 ∧
      maskParamE dC6w (some (constImg2 4 0)) = .ok none) ∧
    (Dataset.load_edge defaultPrims dC6w rng0 (constImg2 4 (1/2)) 0
        (some (constImg2 4 0)) = .ok (zerosLike (constImg2 4 (1/2))) ∧
    (∀ P' : Prims,
      Dataset.load_edge P' dC6w rng0 (constImg2 4 (1/2)) 0
        (some (constImg2 4 0)) = .ok (zerosLike (constImg2 4 (1/2)))) ∧
    (zerosLike (constImg2 4 (1/2))).shape = (constImg2 4 (1/2)).shape ∧
    (∀ y x c, (zerosLike (constImg2 4 (1/2))).px y x c = 0)) :=
  ⟨⟨rfl, rfl, rfl⟩,
    C6_sigma_disabled_zero_edge defaultPrims dC6w rng0 (constImg2 4 (1/2)) 0
      (some (constImg2 4 0)) none rfl rfl rfl⟩

/-! ### C7 -/

/-- C7: with an empty resolved mask list and the ExternalFile policy
(mask type 3), `load_mask` fails — `random.randint(0, -1)` raises
`ValueError` (the spec's ResourceUnavailable condition) — instead of
returning a mask. -/
theorem C7_empty_mask_list_fails (P : Prims) (d : Dataset) (rng : Rng)
    (img : Img) (index : Nat)
    (hempty : d.mask_data = []) (hmask : d.mask = 3) :
    Dataset.load_mask P d rng img index = .error Err.valueError := by
  unfold Dataset.load_mask
  rw [hmask, hempty]
  simp [pyRandint]

/-- Witness for C7: an empty mask list with mask policy 3. -/
theorem C7_witness :
    dC7w.mask_data = [] ∧ dC7w.mask = 3 ∧
    Dataset.load_mask defaultPrims dC7w rng0 (constImg3 4 (1/2)) 0 =
      .error Err.valueError :=
  ⟨rfl, rfl,
    C7_empty_mask_list_fails defaultPrims dC7w rng0 (constImg3 4 (1/2)) 0 rfl rfl⟩

/-! ### C3 -/

/-- Dataset for the C3 counterexample: train mode, ExternalLoaded edge
policy (`edge = 2`) with non-max suppression, and the disabled-sigma
sentinel (-1). -/
def dC3 : Dataset :=
  { mode := 3, augment := false, training := true, data := ["i"]
    edge_data := ["e"], mask_data := [], input_size := 0, sigma := -1
    edge := 2, mask := 1, nms := 1, is_center_crop := false }

/-- All-ones 4 x 4 rank-2 buffer: the loaded external edge map. -/
def onesC3 : Img := constImg2 4 1

/-- Grayscale input for the C3 counterexample. -/
def grayC3 : Img := constImg2 4 (1/2)

/-- Primitives for the C3 counterexample: the reader returns the all-ones
edge map and the detector marks every pixel. -/
def primsC3 : Prims := { defaultPrims with imread := fun _ => .ok onesC3 }

/-- C3 counterexample: with sigma = -1 the code multiplies the loaded
edge map by `canny(img, sigma=-1, mask)` — the raw configured sigma —
whereas a factor obeying the CannyComputed sigma rules would be the
all-zero map; at pixel (0,0) the code yields 1, the claimed value 0. -/
theorem C3_counterexample :
    Dataset.load_edge primsC3 dC3 rng0 grayC3 0 none ≠
      .ok (mulElem (primsC3.resize onesC3 grayC3.h grayC3.w dC3.is_center_crop)
        (specSigmaCanny primsC3 dC3 rng0 grayC3 none)) := by
  intro h
  rw [show Dataset.load_edge primsC3 dC3 rng0 grayC3 0 none =
      .ok (mulElem (specResize onesC3 4 4 false) (onesCanny grayC3 (-1) none))
    from rfl] at h
  rw [Except.ok.injEq] at h
  have hpx := congrArg (fun i => i.px 0 0 0) h
  simp only [mulElem, specResize, onesCanny, specSigmaCanny, zerosLike,
    constImg2, onesC3, grayC3, dC3, primsC3, defaultPrims] at hpx
  norm_num at hpx

/-- C3 amended: in the ExternalLoaded path with non-max suppression
enabled, the loaded-and-resized edge map is multiplied elementwise by a
Canny map computed with the *raw* configured sigma (the -1/0 sentinels
are not interpreted in this path), while the visibility-mask rules do
match the CannyComputed path: no mask in Train mode, the
inverse-normalized mask otherwise. -/
theorem C3_amended_nms_product (P : Prims) (d : Dataset) (rng : Rng)
    (img : Img) (index : Nat) (maskOpt mp : Option Img) (path : String)
    (eraw : Img)
    (hedge : d.edge ≠ 1) (hnms : d.nms = 1)
    (hmp : maskParamE d maskOpt = .ok mp)
    (hpath : d.edge_data.get? index = some path)
    (hread : P.imread path = .ok eraw) :
    Dataset.load_edge P d rng img index maskOpt =
      .ok (mulElem (P.resize eraw img.h img.w d.is_center_crop)
        (P.canny img d.sigma mp)) ∧
    (d.training = true → mp = none) ∧
    (∀ m, d.training = false → maskOpt = some m → mp = some (invertMask m)) := by
  refine ⟨?_, ?_, ?_⟩
  · unfold Dataset.load_edge
    rw [List.get?_eq_getElem?] at hpath
    simp [hmp, if_neg hedge, hpath, hread, hnms]
  · intro htr
    unfold maskParamE at hmp
    rw [htr] at hmp
    simpa using hmp.symm
  · intro m htr hmo
    unfold maskParamE at hmp
    rw [htr, hmo] at hmp
    simpa using hmp.symm

/-- Witness for C3 amended: train mode, external edge with suppression,
fixed sigma 2. -/
theorem C3_amended_witness :
    (dC3w.edge ≠ 1 ∧ dC3w.nms = 1 ∧ maskParamE dC3w none = .ok none ∧
      dC3w.edge_data.get? 0 = some "e" ∧ primsC3.imread "e" = .ok onesC3) ∧
    (Dataset.load_edge primsC3 dC3w rng0 grayC3 0 none =
      .ok (mulElem (primsC3.resize onesC3 grayC3.h grayC3.w dC3w.is_center_crop)
        (primsC3.canny grayC3 dC3w.sigma none)) ∧
    (dC3w.training = true → (none : Option Img) = none) ∧
    (∀ m, dC3w.training = false → (none : Option Img) = some m →
      (none : Option Img) = some (invertMask m))) :=
  ⟨⟨by decide, rfl, rfl, rfl, rfl⟩,
    C3_amended_nms_product primsC3 dC3w rng0 grayC3 0 none none "e" onesC3
      (by decide) rfl rfl rfl rfl⟩

/-! ### C8 -/

/-- Dataset for the C8 counterexample: a single-file list, so index 1 is
out of range. -/
def dC8 : Dataset :=
  { mode := 3, augment := false, training := true, data := ["i"]
    edge_data := [], mask_data := [], input_size := 0, sigma := -1
    edge := 1, mask := 2, nms := 0, is_center_crop := false }

/-- C8 counterexample: at the out-of-range index 1, `load_item` fails and
`load_item(0)` would succeed, yet `__getitem__` does not substitute the
index-0 sample: the handler's log line `'loading error: ' +
self.data[index]` re-indexes the file list and itself raises, so the call
returns that failure instead of the fallback sample. -/
theorem C8_counterexample :
    (Dataset.load_item defaultPrims dC8 rng0 1).isOk = false ∧
    (Dataset.load_item defaultPrims dC8 rng0 0).isOk = true ∧
    Dataset.getitem defaultPrims dC8 rng0 rng0 1 = .error Err.indexError ∧
    Dataset.getitem defaultPrims dC8 rng0 rng0 1 ≠
      Dataset.load_item defaultPrims dC8 rng0 0 := by
  refine ⟨rfl, rfl, rfl, ?_⟩
  intro h
  have hok : (Dataset.load_item defaultPrims dC8 rng0 0).isOk = true := rfl
  rw [← h] at hok
  rw [show Dataset.getitem defaultPrims dC8 rng0 rng0 1 =
      .error Err.indexError from rfl] at hok
  simp [Except.isOk, Except.toBool] at hok

/-- C8 amended: for every index *within the image file list*, a failing
`load_item(index)` is caught and the result is `load_item(0)` under fresh
randomness — no second attempt is made at the failing index, and a
failure of the index-0 fallback propagates out as the call's result. -/
theorem C8_amended_fallback (P : Prims) (d : Dataset) (rng rngB : Rng)
    (index : Nat) (e : Err)
    (hidx : index < d.data.length)
    (hfail : Dataset.load_item P d rng index = .error e) :
    Dataset.getitem P d rng rngB index = Dataset.load_item P d rngB 0 := by
  unfold Dataset.getitem
  simp only [hfail, List.get?_eq_get hidx]

/-- Dataset for the C8 amended witness: index 1 names an unreadable
file. -/
def dC8w : Dataset :=
  { mode := 3, augment := false, training := true, data := ["i", "bad"]
    edge_data := [], mask_data := [], input_size := 0, sigma := -1
    edge := 1, mask := 2, nms := 0, is_center_crop := false }

/-- Primitives for the C8 amended witness: reading "bad" fails. -/
def primsC8w : Prims :=
  { defaultPrims with
    imread := fun s => if s = "bad" then .error .ioError
      else .ok (constImg3 4 (1/2)) }

/-- Witness for C8 amended: the in-range index 1 fails to load and the
call falls back to the index-0 sample. -/
theorem C8_witness :
    (1 < dC8w.data.length ∧
      Dataset.load_item primsC8w dC8w rng0 1 = .error Err.ioError) ∧
    Dataset.getitem primsC8w dC8w rng0 rngAlt 1 =
      Dataset.load_item primsC8w dC8w rngAlt 0 :=
  ⟨⟨by decide, rfl⟩,
    C8_amended_fallback primsC8w dC8w rng0 rngAlt 1 Err.ioError (by decide) rfl⟩

/-! ### C9 -/

/-- One pass of consecutive size-`B` batches over `0..m*B-1` covers
exactly `List.range (m * B)` in order. -/
theorem flatten_range_mul (B : Nat) (m : Nat) :
    ((List.range m).map
      (fun j => (List.range B).map (fun i => j * B + i))).flatten =
      List.range (m * B) := by
  induction m with
  | zero => simp
  | succ m ih =>
    rw [List.range_succ, List.map_append, List.flatten_append]
    simp only [List.map_cons, List.map_nil, List.flatten_cons,
      List.flatten_nil, List.append_nil]
    rw [ih, Nat.succ_mul, List.range_add]

/-- C9: with batch size `B` (`0 < B ≤ N`), one pass consists of exactly
`N / B` batches, each of size exactly `B`, jointly covering the first
`(N / B) * B` indices in order (the trailing incomplete batch is
dropped); the infinite iterator yields a size-`B` batch for every
position `k` and repeats with period `N / B` (restarting a fresh pass on
exhaustion, never terminating). -/
theorem C9_iterator_full_batches (d : Dataset) (B : Nat)
    (hB : 0 < B) (hn : B ≤ d.data.length) :
    (dataLoaderBatches d.data.length B).length = d.data.length / B ∧
    (∀ b ∈ dataLoaderBatches d.data.length B, b.length = B) ∧
    (dataLoaderBatches d.data.length B).flatten =
      List.range (d.data.length / B * B) ∧
    (∀ k, ∃ b, Dataset.create_iterator d B k = some b ∧ b.length = B) ∧
    (∀ k, Dataset.create_iterator d B (k + d.data.length / B) =
      Dataset.create_iterator d B k) := by
  have hnb : 0 < d.data.length / B := (Nat.one_le_div_iff hB).mpr hn
  refine ⟨by simp [dataLoaderBatches], ?_, flatten_range_mul B _, ?_, ?_⟩
  · intro b hb
    simp only [dataLoaderBatches, List.mem_map] at hb
    obtain ⟨j, -, rfl⟩ := hb
    simp
  · intro k
    unfold Dataset.create_iterator
    rw [if_neg (Nat.pos_iff_ne_zero.mp hnb)]
    simp only [dataLoaderBatches, List.get?_eq_getElem?, List.getElem?_map,
      List.getElem?_range (Nat.mod_lt k hnb), Option.map_some']
    exact ⟨_, rfl, by simp⟩
  · intro k
    unfold Dataset.create_iterator
    simp only [Nat.add_mod_right]

/-- Witness for C9: a 10-sample dataset with batch size 4 yields two
batches of 4 per pass and repeats. -/
theorem C9_witness :
    (0 < 4 ∧ 4 ≤ dC9w.data.length) ∧
    ((dataLoaderBatches dC9w.data.length 4).length = dC9w.data.length / 4 ∧
    (∀ b ∈ dataLoaderBatches dC9w.data.length 4, b.length = 4) ∧
    (dataLoaderBatches dC9w.data.length 4).flatten =
      List.range (dC9w.data.length / 4 * 4) ∧
    (∀ k, ∃ b, Dataset.create_iterator dC9w 4 k = some b ∧ b.length = 4) ∧
    (∀ k, Dataset.create_iterator dC9w 4 (k + dC9w.data.length / 4) =
      Dataset.create_iterator dC9w 4 k)) :=
  ⟨⟨by decide, by decide⟩,
    C9_iterator_full_batches dC9w 4 (by decide) (by decide)⟩

/-! ### C2 -/

/-- Replace the crop-mode argument of every resampler invocation with the
fixed flag `b`: used to state that a sample construction passes one
single crop flag to every resize. -/
def forceCrop (P : Prims) (b : Bool) : Prims :=
  { P with resize := fun i th tw _ => P.resize i th tw b }

/-- `np.random.randint(1, 4)` draws a value below 4. -/
theorem npRandint_one_four_lt (t : Nat) : (npRandint 1 4 t).toNat < 4 := by
  simp [npRandint]
  omega

/-- Every resampler call in `load_mask` already receives the dataset's
single crop flag, provided mask policy 6 (whose branch hardcodes
`centerCrop=False`) only occurs with the flag off. -/
theorem load_mask_forceCrop (P : Prims) (d : Dataset) (rng : Rng)
    (index : Nat) (h6 : d.mask = 6 → d.is_center_crop = false) (img : Img) :
    Dataset.load_mask (forceCrop P d.is_center_crop) d rng img index =
      Dataset.load_mask P d rng img index := by
  by_cases hm6 : d.mask = 6
  · unfold Dataset.load_mask forceCrop
    rw [h6 hm6]
  · have hmt6 : (if d.mask = 4 then (if rng.blockOrExtCoin then 1 else 3)
        else if d.mask = 5 then (npRandint 1 4 rng.threeWayDraw).toNat
        else d.mask) ≠ 6 := by
      by_cases h4 : d.mask = 4
      · rw [if_pos h4]
        cases rng.blockOrExtCoin <;> simp
      · by_cases h5 : d.mask = 5
        · rw [if_neg h4, if_pos h5]
          have hlt := npRandint_one_four_lt rng.threeWayDraw
          omega
        · rw [if_neg h4, if_neg h5]
          exact hm6
    unfold Dataset.load_mask
    simp only [forceCrop]
    rw [if_neg hmt6, if_neg hmt6]

/-- Every resampler call in `load_edge` receives the dataset's single
crop flag. -/
theorem load_edge_forceCrop (P : Prims) (d : Dataset) (rng : Rng)
    (index : Nat) (img : Img) (maskOpt : Option Img) :
    Dataset.load_edge (forceCrop P d.is_center_crop) d rng img index maskOpt =
      Dataset.load_edge P d rng img index maskOpt := rfl

/-- The image-normalization step passes the dataset's single crop flag. -/
theorem processingBuffer_forceCrop (P : Prims) (d : Dataset) (x : Img) :
    processingBuffer (forceCrop P d.is_center_crop) d x =
      processingBuffer P d x := rfl

/-- C2: the crop discipline is a single flag derived from the run mode —
center-crop holds iff `MODE` is the Validation code (1), so Train and
Test run non-center — and forcing that one flag into the crop argument of
*every* resampler invocation of a sample construction leaves the result
unchanged, i.e. the flag is applied uniformly to every resize of image,
mask and edge (the hypothesis excludes configuring the Test-only mask
policy 6, whose branch hardcodes a non-center resize, in Validation
mode). -/
theorem C2_crop_discipline (cfg : Config)
    (data edge_data mask_data : List String) (augment training : Bool)
    (P : Prims) (rng : Rng) (index : Nat)
    (hTestOnly : cfg.MODE = MODE_Validation → cfg.MASK ≠ 6) :
    ((Dataset.init cfg data edge_data mask_data augment training).is_center_crop
        = true ↔ cfg.MODE = MODE_Validation) ∧
    Dataset.load_item
        (forceCrop P
          (Dataset.init cfg data edge_data mask_data augment training).is_center_crop)
        (Dataset.init cfg data edge_data mask_data augment training) rng index =
      Dataset.load_item P
        (Dataset.init cfg data edge_data mask_data augment training) rng index := by
  have h6' : (Dataset.init cfg data edge_data mask_data augment training).mask = 6 →
      (Dataset.init cfg data edge_data mask_data augment training).is_center_crop
        = false := by
    intro hm
    simp only [Dataset.init] at hm ⊢
    by_cases h2 : cfg.MODE = 2
    · simp [h2]
    · rw [if_neg h2] at hm
      by_cases h1 : cfg.MODE = 1
      · exact absurd hm (hTestOnly h1)
      · simp [h1]
  constructor
  · simp [Dataset.init, MODE_Validation]
  · unfold Dataset.load_item
    simp only [processingBuffer_forceCrop,
      load_mask_forceCrop P _ rng index h6', load_edge_forceCrop]
    rfl

/-- Witness for C2: Validation mode with the HalfPlane mask policy. -/
theorem C2_witness :
    (cfgC2w.MODE = MODE_Validation → cfgC2w.MASK ≠ 6) ∧
    (((Dataset.init cfgC2w ["i"] [] [] false true).is_center_crop = true ↔
      cfgC2w.MODE = MODE_Validation) ∧
    Dataset.load_item
        (forceCrop defaultPrims
          (Dataset.init cfgC2w ["i"] [] [] false true).is_center_crop)
        (Dataset.init cfgC2w ["i"] [] [] false true) rng0 0 =
      Dataset.load_item defaultPrims
        (Dataset.init cfgC2w ["i"] [] [] false true) rng0 0) :=
  ⟨fun _ => by decide,
    C2_crop_discipline cfgC2w ["i"] [] [] false true defaultPrims rng0 0
      (fun _ => by decide)⟩

end EdgeConnect
